import Mathlib

/-!
Shallow embedding of the warehouse query execution and result-cache layer of
`packages/backend/src/models/WarehouseModel/WarehouseModel.ts` (lightdash).

External effects (database reads, S3 calls, the warehouse driver, the SSH
tunnel) are modelled as explicit outcome parameters; thrown exceptions are
modelled with `Except`; the sequence of external operations performed by a
run is recorded as a trace of events.
-/

namespace WarehouseModel

/-- A returned row, `Record<string, any>` in the source, modelled as a
JSON-like flat record. -/
abbrev Row := List (String × String)

/-! ## Credential store: `getWarehouseCredentialsForProject` -/

/-- Warehouse connection credentials (`CreateWarehouseCredentials`): the
fields the model needs — dialect tag, endpoint and whether an SSH tunnel is
configured. -/
structure Creds where
  typ : String
  host : String
  port : Nat
  useSshTunnel : Bool
deriving DecidableEq, Repr

/-- The row selected from `warehouse_credentials` joined with `projects`. -/
structure CredentialsRow where
  warehouse_type : String
  encrypted_credentials : String
deriving DecidableEq, Repr

/-- Errors thrown by `getWarehouseCredentialsForProject`. -/
inductive CredError where
  | notExists
  | unexpectedServer
deriving DecidableEq, Repr

/-- `getWarehouseCredentialsForProject`: the database lookup result is the
`row` parameter (`undefined` becomes `none`); `decryptParse` is the
composition `JSON.parse(this.encryptionService.decrypt(...))`, whose throw
becomes `Except.error`.  No row throws `NotExistsError`; a decrypt/parse
throw is caught and rethrown as `UnexpectedServerError`. -/
def getWarehouseCredentialsForProject
    (row : Option CredentialsRow)
    (decryptParse : String → Except Unit Creds) : Except CredError Creds :=
  match row with
  | none => .error .notExists
  | some r =>
    match decryptParse r.encrypted_credentials with
    | .ok c => .ok c
    | .error _ => .error .unexpectedServer

/-! ## Attribute overrides: `getAttributeValuesForOrgMember` -/

/-- JS truthy-or: `a || b` where `a` is `userValuesMap[name]` (possibly
`undefined`) and `b` the organization default. An absent or empty-string
user value is falsy and yields the default. -/
def jsOrDefault (userValue : Option String) (dflt : String) : String :=
  match userValue with
  | some v => if v = "" then dflt else v
  | none => dflt

/-- One step of the JS reduce `{...acc, [row.name]: row.value}`: later rows
overwrite earlier bindings. Records are modelled by their lookup function. -/
def jsRecordSet (acc : String → Option String) (name value : String) :
    String → Option String :=
  fun k => if k = name then some value else acc k

/-- `userValues.reduce((acc, row) => ({...acc, [row.name]: row.value}), {})`. -/
def userValuesMap (userValues : List (String × String)) :
    String → Option String :=
  userValues.foldl (fun acc row => jsRecordSet acc row.1 row.2)
    (fun _ => none)

/-- `getAttributeValuesForOrgMember`: `attributeValues` is the list of
`(name, attribute_default)` rows for the organization, `userValues` the list
of `(name, value)` rows for the member.  The result record is built by
reducing over `attributeValues` with
`[row.name]: userValuesMap[row.name] || row.attribute_default`. -/
def getAttributeValuesForOrgMember
    (attributeValues : List (String × String))
    (userValues : List (String × String)) : String → Option String :=
  attributeValues.foldl
    (fun acc row =>
      jsRecordSet acc row.1 (jsOrDefault (userValuesMap userValues row.1) row.2))
    (fun _ => none)

/-- Last-wins association lookup, the lookup semantics of a JS record built
by successive overwriting spreads. -/
def lastLookup (rows : List (String × String)) (k : String) : Option String :=
  rows.foldl (fun acc row => if k = row.1 then some row.2 else acc) none

theorem userValuesMap_eq_lastLookup (uvs : List (String × String))
    (k : String) : userValuesMap uvs k = lastLookup uvs k := by
  unfold userValuesMap lastLookup
  induction uvs using List.reverseRecOn with
  | nil => rfl
  | append_singleton xs x ih =>
    simp [List.foldl_append, jsRecordSet]
    by_cases h : k = x.1 <;> simp [h, ih]

theorem getAttributeValuesForOrgMember_eq (attrs uvs : List (String × String))
    (k : String) :
    getAttributeValuesForOrgMember attrs uvs k =
      (lastLookup attrs k).map (fun d => jsOrDefault (lastLookup uvs k) d) := by
  unfold getAttributeValuesForOrgMember lastLookup
  induction attrs using List.reverseRecOn with
  | nil => rfl
  | append_singleton xs x ih =>
    simp [List.foldl_append, jsRecordSet]
    by_cases h : k = x.1
    · simp [h, userValuesMap_eq_lastLookup, lastLookup]
    · simp [h, ih]

/-! ## SSH tunnel and the warehouse client cache: `getWarehouseClient` -/

/-- Modelled from the spec: `SshTunnel.connect` lives in the
`@lightdash/warehouses` package, which is not part of the provided source.
Per the spec's Tunnel Manager contract, when the credentials specify SSH
parameters `connect` returns credentials rewritten to point at the local
tunnel endpoint (which changes per session, represented here by the
`localHost`/`localPort` arguments); otherwise it returns the original
credentials unchanged. -/
def sshTunnelConnect (credentials : Creds) (localHost : String)
    (localPort : Nat) : Creds :=
  if credentials.useSshTunnel then
    { credentials with host := localHost, port := localPort }
  else credentials

/-- A `WarehouseClient`: reference identity is modelled by `id`, and the
client keeps the credentials it was constructed from (`client.credentials`,
compared by `deepEqual` in the source — structural equality here). -/
structure Client where
  id : Nat
  credentials : Creds
deriving DecidableEq, Repr

/-- The mutable state read and written by `getWarehouseClient`:
`cachedWarehouseClients : Record<string, WarehouseClient>` keyed by project
uuid, plus a counter supplying fresh client identities for
`warehouseClientFromCredentials`. -/
structure ClientCacheState where
  cachedWarehouseClients : List (String × Client)
  nextClientId : Nat
deriving DecidableEq, Repr

/-- Record lookup on `cachedWarehouseClients` (keys are unique: the record
is only updated by overwriting assignment, modelled last-wins). -/
def lookupClient (st : ClientCacheState) (projectUuid : String) :
    Option Client :=
  st.cachedWarehouseClients.foldl
    (fun acc row => if projectUuid = row.1 then some row.2 else acc) none

/-- `this.cachedWarehouseClients[projectUuid] = client`. -/
def storeClient (st : ClientCacheState) (projectUuid : String)
    (client : Client) : ClientCacheState :=
  { cachedWarehouseClients := st.cachedWarehouseClients ++ [(projectUuid, client)]
    nextClientId := st.nextClientId + 1 }

/-- `getWarehouseClient`, after the credentials were loaded and
`sshTunnel.connect()` succeeded: `credentials` is the decrypted row for the
project and `localHost`/`localPort` the tunnel-session endpoint.  Returns
the resolved client and the updated cache state.  If a cached client exists
for the project and its credentials deep-equal the tunnel-rewritten
credentials it is returned and the state is unchanged; otherwise a new
client is constructed and stored under the project key. -/
def getWarehouseClient (st : ClientCacheState) (projectUuid : String)
    (credentials : Creds) (localHost : String) (localPort : Nat) :
    Client × ClientCacheState :=
  let warehouseSshCredentials := sshTunnelConnect credentials localHost localPort
  match lookupClient st projectUuid with
  | some existingClient =>
    if existingClient.credentials = warehouseSshCredentials then
      (existingClient, st)
    else
      let client : Client := ⟨st.nextClientId, warehouseSshCredentials⟩
      (client, storeClient st projectUuid client)
  | none =>
    let client : Client := ⟨st.nextClientId, warehouseSshCredentials⟩
    (client, storeClient st projectUuid client)

/-! ## Result-cache key derivation -/

/-- The string hashed by `getResultsFromCacheOrWarehouse`:
`` `${projectUuid}.${query}` ``. -/
def queryHashInput (projectUuid query : String) : String :=
  projectUuid ++ "." ++ query

/-- `crypto.createHash('sha256').update(input).digest('hex')`: SHA-256 is
modelled as an abstract digest function `h` applied to the exact input
string. -/
def queryHash (h : String → String) (projectUuid query : String) : String :=
  h (queryHashInput projectUuid query)

theorem queryHashInput_inj (p q q' : String)
    (heq : queryHashInput p q = queryHashInput p q') : q = q' := by
  unfold queryHashInput at heq
  have hd := congrArg String.data heq
  simp only [String.data_append] at hd
  exact String.ext (List.append_cancel_left hd)

/-! ## `getResultsFromCacheOrWarehouse` -/

/-- External operations performed during a run, recorded as a trace. -/
inductive Event where
  | connect
  | disconnect
  | cacheMetadataRead
  | cachePayloadRead
  | warehouseQuery
  | cacheWrite
deriving DecidableEq, Repr

/-- `lightdashConfig.resultsCache`. -/
structure ResultsCacheConfig where
  enabled : Bool
  cacheStateTimeSeconds : Int
deriving DecidableEq, Repr

/-- The result of `getResultsFromCacheOrWarehouse`: rows plus
`CacheMetadata` (`cacheHit`, optional `cacheUpdatedTime`). -/
structure CacheResult where
  rows : List Row
  cacheHit : Bool
  cacheUpdatedTime : Option Int
deriving DecidableEq, Repr

/-- Outcomes of the external operations `getResultsFromCacheOrWarehouse` may
perform, fixed up front so a run is a pure function of them.
`metadataResult`: `s3CacheClient.getResultsMetadata` — `.error` is a throw,
`.ok (some t)` metadata whose `LastModified` is the epoch-millisecond `t`,
`.ok none` metadata without `LastModified`.
`payloadResult`: `s3CacheClient.getResults` followed by
`Body?.transformToString()` — `.error` is a throw, `.ok none` a missing
body, `.ok (some s)` the string body.
`parsedRows s`: `JSON.parse(s).rows`, `none` when parsing throws.
`warehouseResult`: `warehouseClient.runQuery` — `.error` is a throw.
`uploadResult`: `s3CacheClient.uploadResults`, issued fire-and-forget with
`.catch(e => undefined)`. -/
structure CacheEnv where
  config : ResultsCacheConfig
  now : Int
  metadataResult : Except Unit (Option Int)
  payloadResult : Except Unit (Option String)
  parsedRows : String → Option (List Row)
  warehouseResult : Except Unit (List Row)
  uploadResult : Except Unit Unit

/-- The cache-read phase of `getResultsFromCacheOrWarehouse` (the body of
`if (lightdashConfig.resultsCache?.enabled) { ... }` before the warehouse
query).  `.ok (some r)` is a cache hit returned to the caller, `.ok none`
falls through to warehouse execution, `.error` a thrown exception. -/
def cacheReadPhase (env : CacheEnv) :
    Except Unit (Option CacheResult) × List Event :=
  if env.config.enabled then
    let cacheEntryMetadata : Option Int :=
      match env.metadataResult with
      | .ok m => m
      | .error _ => none
    match cacheEntryMetadata with
    | some lastModified =>
      if env.now - lastModified <
          env.config.cacheStateTimeSeconds * 1000 then
        match env.payloadResult with
        | .error e => (.error e, [.cacheMetadataRead, .cachePayloadRead])
        | .ok stringResults =>
          match stringResults with
          | some s =>
            if s ≠ "" then
              match env.parsedRows s with
              | some rows =>
                (.ok (some ⟨rows, true, some lastModified⟩),
                  [.cacheMetadataRead, .cachePayloadRead])
              | none => (.ok none, [.cacheMetadataRead, .cachePayloadRead])
            else (.ok none, [.cacheMetadataRead, .cachePayloadRead])
          | none => (.ok none, [.cacheMetadataRead, .cachePayloadRead])
      else (.ok none, [.cacheMetadataRead])
    | none => (.ok none, [.cacheMetadataRead])
  else (.ok none, [])

/-- `getResultsFromCacheOrWarehouse`: cache-read phase, then warehouse
execution on fall-through, then — when caching is enabled — the
fire-and-forget cache write, whose outcome (`env.uploadResult`) is
discarded by `.catch(e => undefined)` and never awaited. -/
def getResultsFromCacheOrWarehouse (env : CacheEnv) :
    Except Unit CacheResult × List Event :=
  match cacheReadPhase env with
  | (.error e, evs) => (.error e, evs)
  | (.ok (some res), evs) => (.ok res, evs)
  | (.ok none, evs) =>
    match env.warehouseResult with
    | .error e => (.error e, evs ++ [.warehouseQuery])
    | .ok rows =>
      if env.config.enabled then
        (.ok ⟨rows, false, none⟩, evs ++ [.warehouseQuery, .cacheWrite])
      else
        (.ok ⟨rows, false, none⟩, evs ++ [.warehouseQuery])

/-! ## `runMetricQuery` and `runQuery` -/

/-- Outcomes of the steps of `runMetricQuery` that precede
`getResultsFromCacheOrWarehouse`.
`credentialsResult`: `getWarehouseCredentialsForProject` (before the tunnel
is created).  `connectOk`: whether `sshTunnel.connect()` succeeds.
`attrResult`: `getAttributeValuesForOrgMember`.  `compileResult`:
`compileMetricQuery` + `buildQuery`, producing the compiled query text. -/
structure RunEnv where
  credentialsResult : Except Unit Creds
  connectOk : Bool
  attrResult : Except Unit Unit
  compileResult : Except Unit String
  cacheEnv : CacheEnv

/-- The value returned by `runMetricQuery` on success. -/
structure RunMetricQueryResult where
  rows : List Row
  cacheMetadata : CacheResult
  query : String
deriving DecidableEq, Repr

/-- `runMetricQuery`: resolves the warehouse client (connecting the SSH
tunnel), resolves user attributes, compiles the query, runs
`getResultsFromCacheOrWarehouse`, then `await sshTunnel.disconnect()` and
returns.  There is no try/finally in the source: any throw after
`sshTunnel.connect()` propagates without reaching the `disconnect` call.
The trace records `.connect` when the tunnel connects and `.disconnect`
when `disconnect` is invoked. -/
def runMetricQuery (env : RunEnv) :
    Except Unit RunMetricQueryResult × List Event :=
  match env.credentialsResult with
  | .error e => (.error e, [])
  | .ok _ =>
    if env.connectOk then
      match env.attrResult with
      | .error e => (.error e, [.connect])
      | .ok _ =>
        match env.compileResult with
        | .error e => (.error e, [.connect])
        | .ok query =>
          match getResultsFromCacheOrWarehouse env.cacheEnv with
          | (.error e, evs) => (.error e, .connect :: evs)
          | (.ok res, evs) =>
            (.ok ⟨res.rows, res, query⟩,
              .connect :: evs ++ [.disconnect])
    else (.error (), [])

/-- `runQuery`: resolves the warehouse client (connecting the SSH tunnel),
runs the query directly against the warehouse, then
`await sshTunnel.disconnect()`.  As in `runMetricQuery` there is no
try/finally: a warehouse throw propagates without disconnecting. -/
def runQuery (credentialsResult : Except Unit Creds) (connectOk : Bool)
    (warehouseResult : Except Unit (List Row)) :
    Except Unit (List Row) × List Event :=
  match credentialsResult with
  | .error e => (.error e, [])
  | .ok _ =>
    if connectOk then
      match warehouseResult with
      | .error e => (.error e, [.connect, .warehouseQuery])
      | .ok rows => (.ok rows, [.connect, .warehouseQuery, .disconnect])
    else (.error (), [])

/-! ## Claim theorems -/

/-- C6: credential resolution fails with the not-found error exactly when no
credential row exists for the project, fails with the distinct
unexpected-server error exactly when decryption/parsing of the stored blob
fails, and otherwise returns the decrypted credentials. -/
theorem C6_credential_resolution_errors (row : Option CredentialsRow)
    (decryptParse : String → Except Unit Creds) :
    (getWarehouseCredentialsForProject row decryptParse = .error .notExists
      ↔ row = none) ∧
    (getWarehouseCredentialsForProject row decryptParse =
        .error .unexpectedServer
      ↔ ∃ r, row = some r ∧
          decryptParse r.encrypted_credentials = .error ()) ∧
    (∀ c, getWarehouseCredentialsForProject row decryptParse = .ok c
      ↔ ∃ r, row = some r ∧
          decryptParse r.encrypted_credentials = .ok c) := by
  unfold getWarehouseCredentialsForProject
  match row with
  | none => simp
  | some r =>
    match h : decryptParse r.encrypted_credentials with
    | .ok c => simp [h]
    | .error e => simp [h]

/-- C9: the cache key is a digest of the exact input string
`projectUuid ++ "." ++ query`, so key derivation is deterministic, and for
a fixed project, as long as the digest function is collision-free on the
inputs involved, two query texts yield the same key exactly when they are
equal. -/
theorem C9_deriveKey_deterministic_injective (h : String → String)
    (hinj : Function.Injective h) (p q q' : String) :
    queryHash h p q = queryHash h p q' ↔ q = q' := by
  constructor
  · intro he
    exact queryHashInput_inj p q q' (hinj he)
  · intro he
    rw [he]

/-- Witness for C9 at a concrete injective digest and concrete strings. -/
theorem C9_deriveKey_witness :
    Function.Injective (id : String → String) ∧
    (queryHash id "p" "abc" = queryHash id "p" "abd" ↔ "abc" = "abd") :=
  ⟨Function.injective_id,
    C9_deriveKey_deterministic_injective id Function.injective_id
      "p" "abc" "abd"⟩

/-- C10: two distinct (projectUuid, queryText) pairs collide by
construction: project "a.b" with query "c" and project "a" with query
"b.c" both hash the string "a.b.c", so they derive the same key under any
digest function. -/
theorem C10_cross_project_key_collision :
    (("a.b", "c") : String × String) ≠ ("a", "b.c") ∧
    ∀ h : String → String, queryHash h "a.b" "c" = queryHash h "a" "b.c" := by
  refine ⟨by decide, fun h => ?_⟩
  have hin : queryHashInput "a.b" "c" = queryHashInput "a" "b.c" := by decide
  unfold queryHash
  rw [hin]

/-- C5 counterexample: the merge uses the JS truthy `||`, so a present but
empty-string user value loses to the organization default.  With one
organization attribute `a` defaulting to `"dflt"` and a user override
`a := ""`, both exist for name `a`, yet the result is the default, not the
user's value. -/
theorem C5_counterexample_empty_user_value :
    lastLookup [("a", "dflt")] "a" = some "dflt" ∧
    lastLookup [("a", "")] "a" = some "" ∧
    getAttributeValuesForOrgMember [("a", "dflt")] [("a", "")] "a" =
      some "dflt" ∧
    some "dflt" ≠ some ("" : String) := by
  refine ⟨by decide, by decide, ?_, by decide⟩
  rfl

/-- C5 (amended): the resolution returns a map defined exactly on the
organization's attribute names; for each name the user's override takes
precedence when it is present and non-empty, while an absent or
empty-string user value yields the organization default. -/
theorem C5_attribute_merge (attrs uvs : List (String × String)) (k : String) :
    (getAttributeValuesForOrgMember attrs uvs k =
      (lastLookup attrs k).map (fun d => jsOrDefault (lastLookup uvs k) d)) ∧
    (∀ d v, lastLookup attrs k = some d → lastLookup uvs k = some v →
      v ≠ "" → getAttributeValuesForOrgMember attrs uvs k = some v) ∧
    (∀ d, lastLookup attrs k = some d →
      (lastLookup uvs k = none ∨ lastLookup uvs k = some "") →
      getAttributeValuesForOrgMember attrs uvs k = some d) ∧
    (lastLookup attrs k = none →
      getAttributeValuesForOrgMember attrs uvs k = none) := by
  have hmain := getAttributeValuesForOrgMember_eq attrs uvs k
  refine ⟨hmain, ?_, ?_, ?_⟩
  · intro d v ha hu hv
    rw [hmain, ha, hu]
    simp [jsOrDefault, hv]
  · intro d ha hu
    rw [hmain, ha]
    rcases hu with hu | hu <;> simp [hu, jsOrDefault]
  · intro ha
    rw [hmain, ha]
    rfl

/-- Witness for C5 at concrete attribute lists: a non-empty user value
wins over the default. -/
theorem C5_attribute_merge_witness :
    getAttributeValuesForOrgMember [("a", "dflt"), ("b", "d2")] [("a", "v")]
      "a" = some "v" :=
  (C5_attribute_merge [("a", "dflt"), ("b", "d2")] [("a", "v")] "a").2.1
    "dflt" "v" (by decide) (by decide) (by decide)

theorem lookupClient_storeClient (st : ClientCacheState) (p : String)
    (c : Client) : lookupClient (storeClient st p c) p = some c := by
  unfold lookupClient storeClient
  simp [List.foldl_append]

/-- C3: client resolution returns the cached instance exactly when a cached
entry exists for the project whose stored credentials equal the
tunnel-rewritten effective credentials; otherwise a freshly constructed
client is stored under the project key; with SSH enabled and a
tunnel-session port differing from the cached client's, the cache is never
served; and a repeated call with unchanged non-SSH credentials returns the
identical client with the state unchanged. -/
theorem C3_getWarehouseClient_cache (st : ClientCacheState)
    (p : String) (creds : Creds) (lh : String) (lp : Nat) :
    ((∃ ec, lookupClient st p = some ec ∧
        ec.credentials = sshTunnelConnect creds lh lp ∧
        getWarehouseClient st p creds lh lp = (ec, st)) ∨
      ((∀ ec, lookupClient st p = some ec →
          ec.credentials ≠ sshTunnelConnect creds lh lp) ∧
        (getWarehouseClient st p creds lh lp).1 =
          ⟨st.nextClientId, sshTunnelConnect creds lh lp⟩ ∧
        (getWarehouseClient st p creds lh lp).2 =
          storeClient st p (getWarehouseClient st p creds lh lp).1 ∧
        lookupClient (getWarehouseClient st p creds lh lp).2 p =
          some (getWarehouseClient st p creds lh lp).1)) ∧
    (creds.useSshTunnel = true →
      (∀ ec, lookupClient st p = some ec → ec.credentials.port ≠ lp) →
      (getWarehouseClient st p creds lh lp).1 =
        ⟨st.nextClientId, sshTunnelConnect creds lh lp⟩) ∧
    (creds.useSshTunnel = false →
      getWarehouseClient
          (getWarehouseClient st p creds lh lp).2 p creds lh lp =
        getWarehouseClient st p creds lh lp) := by
  refine ⟨?_, ?_, ?_⟩
  · match hl : lookupClient st p with
    | some ec =>
      by_cases hc : ec.credentials = sshTunnelConnect creds lh lp
      · exact Or.inl ⟨ec, rfl, hc, by unfold getWarehouseClient; simp [hl, hc]⟩
      · refine Or.inr ⟨?_, ?_, ?_, ?_⟩
        · intro ec' hl'
          cases hl'
          exact hc
        · unfold getWarehouseClient; simp [hl, hc]
        · unfold getWarehouseClient; simp [hl, hc]
        · unfold getWarehouseClient
          simp [hl, hc, lookupClient_storeClient]
    | none =>
      refine Or.inr ⟨?_, ?_, ?_, ?_⟩
      · intro ec' hl'
        cases hl'
      · unfold getWarehouseClient; simp [hl]
      · unfold getWarehouseClient; simp [hl]
      · unfold getWarehouseClient
        simp [hl, lookupClient_storeClient]
  · intro hssh hport
    have heff : (sshTunnelConnect creds lh lp).port = lp := by
      unfold sshTunnelConnect
      simp [hssh]
    match hl : lookupClient st p with
    | some ec =>
      have hc : ec.credentials ≠ sshTunnelConnect creds lh lp := by
        intro he
        exact hport ec hl (by rw [he, heff])
      unfold getWarehouseClient; simp [hl, hc]
    | none =>
      unfold getWarehouseClient; simp [hl]
  · intro hssh
    have heff : sshTunnelConnect creds lh lp = creds := by
      unfold sshTunnelConnect
      simp [hssh]
    match hl : lookupClient st p with
    | some ec =>
      by_cases hc : ec.credentials = sshTunnelConnect creds lh lp
      · have h1 : getWarehouseClient st p creds lh lp = (ec, st) := by
          unfold getWarehouseClient; simp [hl, hc]
        rw [h1]
        unfold getWarehouseClient; simp [hl, hc]
      · have h1 : getWarehouseClient st p creds lh lp =
            (⟨st.nextClientId, sshTunnelConnect creds lh lp⟩,
              storeClient st p ⟨st.nextClientId, sshTunnelConnect creds lh lp⟩) := by
          unfold getWarehouseClient; simp [hl, hc]
        rw [h1]
        unfold getWarehouseClient
        simp [lookupClient_storeClient]
    | none =>
      have h1 : getWarehouseClient st p creds lh lp =
          (⟨st.nextClientId, sshTunnelConnect creds lh lp⟩,
            storeClient st p ⟨st.nextClientId, sshTunnelConnect creds lh lp⟩) := by
        unfold getWarehouseClient; simp [hl]
      rw [h1]
      unfold getWarehouseClient
      simp [lookupClient_storeClient]

/-- Witness for C3 at a concrete state: an empty cache, non-SSH
credentials; the second call returns the client constructed and stored by
the first. -/
theorem C3_getWarehouseClient_cache_witness :
    getWarehouseClient
        (getWarehouseClient ⟨[], 0⟩ "p1" ⟨"postgres", "db", 5432, false⟩
          "localhost" 9000).2
        "p1" ⟨"postgres", "db", 5432, false⟩ "localhost" 9000 =
      getWarehouseClient ⟨[], 0⟩ "p1" ⟨"postgres", "db", 5432, false⟩
        "localhost" 9000 :=
  (C3_getWarehouseClient_cache ⟨[], 0⟩ "p1" ⟨"postgres", "db", 5432, false⟩
    "localhost" 9000).2.2 rfl

/-- C4: a cache entry whose age is at least the configured staleness
threshold (seconds, compared in milliseconds; the boundary age equal to the
threshold counts as stale) is never returned: the payload is not even
fetched, and execution falls through to the warehouse with
`cacheHit: false`. -/
theorem C4_stale_entry_never_returned (th now t : Int) (rows : List Row)
    (pl : Except Unit (Option String)) (pr : String → Option (List Row))
    (u : Except Unit Unit)
    (hstale : now - t ≥ th * 1000) :
    getResultsFromCacheOrWarehouse
        ⟨⟨true, th⟩, now, .ok (some t), pl, pr, .ok rows, u⟩ =
      (.ok ⟨rows, false, none⟩,
        [.cacheMetadataRead, .warehouseQuery, .cacheWrite]) := by
  have hfresh : ¬(now - t < th * 1000) := not_lt.mpr hstale
  unfold getResultsFromCacheOrWarehouse cacheReadPhase
  simp [hfresh]

/-- Witness for C4 exactly at the staleness boundary: threshold 3600
seconds, entry age exactly 3600000 milliseconds. -/
theorem C4_stale_entry_witness :
    getResultsFromCacheOrWarehouse
        ⟨⟨true, 3600⟩, 3600000, .ok (some 0), .ok (some "body"),
          fun _ => some [[("a", "1")]], .ok [[("b", "2")]], .ok ()⟩ =
      (.ok ⟨[[("b", "2")]], false, none⟩,
        [.cacheMetadataRead, .warehouseQuery, .cacheWrite]) :=
  C4_stale_entry_never_returned 3600 3600000 0 [[("b", "2")]]
    (.ok (some "body")) (fun _ => some [[("a", "1")]]) (.ok ()) (by decide)

theorem cacheReadPhase_upload_irrelevant (cfg : ResultsCacheConfig)
    (now : Int) (md : Except Unit (Option Int))
    (pl : Except Unit (Option String)) (pr : String → Option (List Row))
    (wr : Except Unit (List Row)) (u u' : Except Unit Unit) :
    cacheReadPhase ⟨cfg, now, md, pl, pr, wr, u⟩ =
      cacheReadPhase ⟨cfg, now, md, pl, pr, wr, u'⟩ := rfl

/-- C7: the cache write is fire-and-forget: the outcome of
`uploadResults` is discarded, so the whole result of
`getResultsFromCacheOrWarehouse` — rows, cache metadata and success — is
independent of whether the write succeeds or fails; and on a cache miss
with caching enabled the write is issued (a `.cacheWrite` event follows
the warehouse query) while the returned value is exactly the warehouse
rows with `cacheHit: false`. -/
theorem C7_cache_write_fire_and_forget (cfg : ResultsCacheConfig)
    (now : Int) (md : Except Unit (Option Int))
    (pl : Except Unit (Option String)) (pr : String → Option (List Row))
    (wr : Except Unit (List Row)) (u u' : Except Unit Unit) :
    (getResultsFromCacheOrWarehouse ⟨cfg, now, md, pl, pr, wr, u⟩ =
      getResultsFromCacheOrWarehouse ⟨cfg, now, md, pl, pr, wr, u'⟩) ∧
    (∀ rows evs, cfg.enabled = true → wr = .ok rows →
      cacheReadPhase ⟨cfg, now, md, pl, pr, wr, u⟩ = (.ok none, evs) →
      getResultsFromCacheOrWarehouse ⟨cfg, now, md, pl, pr, wr, u⟩ =
        (.ok ⟨rows, false, none⟩, evs ++ [.warehouseQuery, .cacheWrite])) := by
  constructor
  · rfl
  · intro rows evs hen hwr hread
    unfold getResultsFromCacheOrWarehouse
    rw [hread]
    simp [hwr, hen]

/-- Witness for C7 at a concrete cache-miss environment: the result is
identical whether the upload succeeds or fails, and the returned value is
the warehouse rows with `cacheHit: false` followed by the issued write. -/
theorem C7_cache_write_witness :
    getResultsFromCacheOrWarehouse
        ⟨⟨true, 3600⟩, 0, .ok none, .ok none, fun _ => none,
          .ok [[("a", "1")]], .ok ()⟩ =
      getResultsFromCacheOrWarehouse
        ⟨⟨true, 3600⟩, 0, .ok none, .ok none, fun _ => none,
          .ok [[("a", "1")]], .error ()⟩ ∧
    getResultsFromCacheOrWarehouse
        ⟨⟨true, 3600⟩, 0, .ok none, .ok none, fun _ => none,
          .ok [[("a", "1")]], .ok ()⟩ =
      (.ok ⟨[[("a", "1")]], false, none⟩,
        [.cacheMetadataRead, .warehouseQuery, .cacheWrite]) :=
  ⟨(C7_cache_write_fire_and_forget ⟨true, 3600⟩ 0 (.ok none) (.ok none)
      (fun _ => none) (.ok [[("a", "1")]]) (.ok ()) (.error ())).1,
    (C7_cache_write_fire_and_forget ⟨true, 3600⟩ 0 (.ok none) (.ok none)
      (fun _ => none) (.ok [[("a", "1")]]) (.ok ()) (.error ())).2
      [[("a", "1")]] [.cacheMetadataRead] rfl rfl rfl⟩

/-- C8: with results caching disabled in the process-wide configuration,
a `runMetricQuery` invocation performs no cache read and no cache write —
its trace holds no cache events for any step outcomes — and when every
step succeeds it returns exactly the warehouse rows with `cacheHit: false`. -/
theorem C8_caching_disabled_no_cache_io (cr : Except Unit Creds)
    (co : Bool) (ar : Except Unit Unit) (cq : Except Unit String)
    (th now : Int) (md : Except Unit (Option Int))
    (pl : Except Unit (Option String)) (pr : String → Option (List Row))
    (wr : Except Unit (List Row)) (u : Except Unit Unit) :
    (Event.cacheMetadataRead ∉
        (runMetricQuery ⟨cr, co, ar, cq, ⟨⟨false, th⟩, now, md, pl, pr, wr, u⟩⟩).2 ∧
      Event.cachePayloadRead ∉
        (runMetricQuery ⟨cr, co, ar, cq, ⟨⟨false, th⟩, now, md, pl, pr, wr, u⟩⟩).2 ∧
      Event.cacheWrite ∉
        (runMetricQuery ⟨cr, co, ar, cq, ⟨⟨false, th⟩, now, md, pl, pr, wr, u⟩⟩).2) ∧
    (∀ c q rows, cr = .ok c → co = true → ar = .ok () → cq = .ok q →
      wr = .ok rows →
      runMetricQuery ⟨cr, co, ar, cq, ⟨⟨false, th⟩, now, md, pl, pr, wr, u⟩⟩ =
        (.ok ⟨rows, ⟨rows, false, none⟩, q⟩,
          [.connect, .warehouseQuery, .disconnect])) := by
  constructor
  · have hread : cacheReadPhase ⟨⟨false, th⟩, now, md, pl, pr, wr, u⟩ =
        (.ok none, []) := rfl
    unfold runMetricQuery
    match cr with
    | .error e => simp
    | .ok c =>
      match co with
      | false => simp
      | true =>
        match ar with
        | .error e => simp
        | .ok _ =>
          match cq with
          | .error e => simp
          | .ok q =>
            unfold getResultsFromCacheOrWarehouse
            rw [hread]
            match wr with
            | .error e => simp
            | .ok rows => simp
  · intro c q rows hcr hco har hcq hwr
    subst hcr; subst hco; subst har; subst hcq; subst hwr
    rfl

/-- Witness for C8 at a concrete disabled-cache environment with all steps
succeeding. -/
theorem C8_caching_disabled_witness :
    runMetricQuery
        ⟨.ok ⟨"postgres", "db", 5432, false⟩, true, .ok (), .ok "SELECT 1",
          ⟨⟨false, 3600⟩, 0, .ok (some 0), .ok (some "body"), fun _ => none,
            .ok [[("a", "1")]], .ok ()⟩⟩ =
      (.ok ⟨[[("a", "1")]], ⟨[[("a", "1")]], false, none⟩, "SELECT 1"⟩,
        [.connect, .warehouseQuery, .disconnect]) :=
  (C8_caching_disabled_no_cache_io (.ok ⟨"postgres", "db", 5432, false⟩)
    true (.ok ()) (.ok "SELECT 1") 3600 0 (.ok (some 0)) (.ok (some "body"))
    (fun _ => none) (.ok [[("a", "1")]]) (.ok ())).2
    ⟨"postgres", "db", 5432, false⟩ "SELECT 1" [[("a", "1")]]
    rfl rfl rfl rfl rfl

/-- C2 counterexample: with caching enabled and fresh cache metadata, a
thrown failure of the payload fetch (`s3CacheClient.getResults`) has no
handler and surfaces to the caller of `runMetricQuery` instead of falling
through to warehouse execution. -/
theorem C2_counterexample_payload_fetch_failure_surfaces :
    runMetricQuery
        ⟨.ok ⟨"postgres", "db", 5432, false⟩, true, .ok (), .ok "SELECT 1",
          ⟨⟨true, 3600⟩, 1000, .ok (some 500), .error (), fun _ => none,
            .ok [[("a", "1")]], .ok ()⟩⟩ =
      (.error (), [.connect, .cacheMetadataRead, .cachePayloadRead]) := rfl

/-- C2 (amended): a failure of the Result Cache metadata fetch is never
surfaced: `getResultsMetadata` is guarded by `.catch`, so the invocation
falls through to warehouse execution and returns the warehouse rows with
`cacheHit: false`; a thrown failure of the payload fetch (`getResults`),
by contrast, propagates to the caller. -/
theorem C2_metadata_fetch_failure_falls_through (c : Creds) (q : String)
    (th now : Int) (pl : Except Unit (Option String))
    (pr : String → Option (List Row)) (rows : List Row)
    (u : Except Unit Unit) (ar : Except Unit Unit)
    (har : ar = .ok ()) :
    runMetricQuery ⟨.ok c, true, ar, .ok q,
        ⟨⟨true, th⟩, now, .error (), pl, pr, .ok rows, u⟩⟩ =
      (.ok ⟨rows, ⟨rows, false, none⟩, q⟩,
        [.connect, .cacheMetadataRead, .warehouseQuery, .cacheWrite,
          .disconnect]) := by
  subst har
  rfl

/-- Witness for C2's amended statement at a concrete environment. -/
theorem C2_metadata_fetch_failure_witness :
    runMetricQuery ⟨.ok ⟨"postgres", "db", 5432, false⟩, true, .ok (),
        .ok "SELECT 1",
        ⟨⟨true, 3600⟩, 1000, .error (), .ok (some "body"), fun _ => none,
          .ok [[("a", "1")]], .ok ()⟩⟩ =
      (.ok ⟨[[("a", "1")]], ⟨[[("a", "1")]], false, none⟩, "SELECT 1"⟩,
        [.connect, .cacheMetadataRead, .warehouseQuery, .cacheWrite,
          .disconnect]) :=
  C2_metadata_fetch_failure_falls_through ⟨"postgres", "db", 5432, false⟩
    "SELECT 1" 3600 1000 (.ok (some "body")) (fun _ => none)
    [[("a", "1")]] (.ok ()) (.ok ()) rfl

/-- C1: the claim requires `disconnect` exactly once per connected tunnel
on every path, but neither `runMetricQuery` nor `runQuery` has a
try/finally: when warehouse execution throws after the tunnel connected,
the run ends in error with one `.connect` and zero `.disconnect` events
(the tunnel leaks), while the success path does disconnect exactly once. -/
theorem C1_no_disconnect_when_warehouse_throws :
    (let envBad : RunEnv :=
      ⟨.ok ⟨"postgres", "db", 5432, false⟩, true, .ok (), .ok "SELECT 1",
        ⟨⟨false, 3600⟩, 0, .ok none, .ok none, fun _ => none, .error (),
          .ok ()⟩⟩
    (runMetricQuery envBad).1 = .error () ∧
      (runMetricQuery envBad).2.count .connect = 1 ∧
      (runMetricQuery envBad).2.count .disconnect = 0) ∧
    (let envGood : RunEnv :=
      ⟨.ok ⟨"postgres", "db", 5432, false⟩, true, .ok (), .ok "SELECT 1",
        ⟨⟨false, 3600⟩, 0, .ok none, .ok none, fun _ => none,
          .ok [[("a", "1")]], .ok ()⟩⟩
    (runMetricQuery envGood).2.count .connect = 1 ∧
      (runMetricQuery envGood).2.count .disconnect = 1) ∧
    (runQuery (.ok ⟨"postgres", "db", 5432, false⟩) true (.error ())).1 =
        .error () ∧
    (runQuery (.ok ⟨"postgres", "db", 5432, false⟩) true
        (.error ())).2.count .disconnect = 0 := by
  refine ⟨⟨rfl, rfl, rfl⟩, ⟨rfl, rfl⟩, rfl, rfl⟩

end WarehouseModel
